import Mathlib

/-!
Verification of the ingestion and decision pipeline of the Solana token
sniper.  The definitions below are a shallow embedding of the TypeScript
sources: `index.ts` (transport listeners, dedup/concurrency gate, decision
pipeline), `utils/handlers/tokenHandler.ts` (authority lookup and the
quick-rug-pull heuristic), `utils/managers/grpcManager.ts` (stream
subscription) and the Sniperoo buy handler (`buyToken`).  Network calls
are modelled as explicit oracle inputs (`Except Unit _` for fallible
calls), so every definition is executable.
-/

namespace VIP

/-- The whitespace characters relevant to JS string trimming on the
identifiers this program handles. -/
def isJsSpace (c : Char) : Bool := c = ' ' ∨ c = '\t' ∨ c = '\n' ∨ c = '\r'

/-- JS `String.prototype.trim`: drop whitespace from both ends. -/
def strTrim (s : String) : String :=
  ⟨((s.data.dropWhile isJsSpace).reverse.dropWhile isJsSpace).reverse⟩

/-- JS `String.prototype.toLowerCase` on the ASCII identifiers this
program handles. -/
def strToLower (s : String) : String := ⟨s.data.map Char.toLower⟩

/-- JS `String.prototype.endsWith`. -/
def strEndsWith (s pat : String) : Bool :=
  pat.data.reverse.isPrefixOf s.data.reverse

/-- Does `pat` occur as a contiguous run inside the list? -/
def listHasInfix (pat : List Char) : List Char → Bool
  | [] => pat.isEmpty
  | c :: rest => pat.isPrefixOf (c :: rest) || listHasInfix pat rest

/-- JS `String.prototype.includes`. -/
def strIncludes (s pat : String) : Bool := listHasInfix pat.data s.data

/-- Static configuration, the fields of `config` read by `index.ts`.
`checkMode` is `config.checks.mode` (`none` models an unset value;
the empty string is falsy in JS, so both default to `"full"`). -/
structure Config where
  checkMode : Option String
  allowMintAuthority : Bool
  allowFreezeAuthority : Bool
  ignoreEndsWithPump : Bool
  buyProvider : String
  simMode : Bool
  maxConcurrent : Nat
  wsolMint : String
  deriving DecidableEq

/-- `CHECK_MODE = config.checks.mode || "full"`: an unset or empty (falsy)
mode falls back to `"full"`; any other string is kept verbatim. -/
def CHECK_MODE (cfg : Config) : String :=
  match cfg.checkMode with
  | none => "full"
  | some s => if s = "" then "full" else s

/-- Result of the on-chain `getMint` lookup used by
`TokenCheckManager.getTokenAuthorities`. -/
structure MintInfo where
  mintAuthority : Option String
  freezeAuthority : Option String
  deriving DecidableEq

/-- The fields of `TokenAuthorityStatus` the pipeline reads. -/
structure TokenAuthorityStatus where
  mintAddress : String
  hasMintAuthority : Bool
  hasFreezeAuthority : Bool
  isSecure : Bool
  deriving DecidableEq

/-- `TokenCheckManager.getTokenAuthorities`: validates the mint address,
derives the authority flags from the mint info, and on any error logs and
rethrows (`catch (error) ... throw error`).  The on-chain lookup is the
`lookup` oracle. -/
def getTokenAuthorities (mintAddress : String) (lookup : Except Unit MintInfo) :
    Except Unit TokenAuthorityStatus :=
  if strTrim mintAddress = "" then Except.error ()
  else
    match lookup with
    | Except.error e => Except.error e
    | Except.ok mi =>
        Except.ok
          { mintAddress := mintAddress
            hasMintAuthority := mi.mintAuthority.isSome
            hasFreezeAuthority := mi.freezeAuthority.isSome
            isSecure := !mi.mintAuthority.isSome && !mi.freezeAuthority.isSome }

/-- Data fetched by `TokenCheckManager.isQuickRugPull`: the number of
signatures returned for the mint, the block time of the oldest one
(`none` models a null answer; `0` is also falsy in JS), and the current
wall-clock time in seconds. -/
structure RugData where
  txCount : Nat
  oldestBlockTime : Option Int
  currentTime : Int
  deriving DecidableEq

/-- `TokenCheckManager.isQuickRugPull`: invalid address or any thrown
error is caught and yields `false`; no transactions or a falsy block time
yield `false`; otherwise it reports whether the elapsed time since the
oldest transaction exceeds 60 seconds. -/
def isQuickRugPull (mintAddress : String) (fetch : Except Unit RugData) : Bool :=
  if strTrim mintAddress = "" then false
  else
    match fetch with
    | Except.error _ => false
    | Except.ok d =>
        if d.txCount = 0 then false
        else
          match d.oldestBlockTime with
          | none => false
          | some bt => if bt = 0 then false else decide (d.currentTime - bt > 60)

/-- Oracle outcomes of the external collaborators consulted during one
evaluation.  `rugCheckConfirmed` stands for `getRugCheckConfirmed`
(its handler file is not part of the sources; per the spec it is a plain
boolean verdict), `buyResult` for the boolean returned by `buyToken`. -/
structure Collaborators where
  authorities : Except Unit MintInfo
  rugData : Except Unit RugData
  rugCheckConfirmed : Bool
  buyResult : Bool

/-- Outcome of one admitted evaluation. -/
inductive Verdict where
  | droppedDuplicate
  | noMint
  | checkRejected
  | buyFailed
  | completed
  | errored
  deriving DecidableEq

/-- Result of one evaluation: its verdict, the value of `CURRENT_MINT`
when the evaluation finished (or threw), and whether `buyToken` was
invoked. -/
structure EvalResult where
  verdict : Verdict
  currentMint : String
  buyAttempted : Bool
  deriving DecidableEq

/-- The snipe-mode rejection condition of `index.ts`: a token that is not
secure is skipped when it has a mint (resp. freeze) authority that the
configuration does not allow. -/
def snipeRejects (cfg : Config) (st : TokenAuthorityStatus) : Bool :=
  !st.isSecure &&
    ((!cfg.allowMintAuthority && st.hasMintAuthority) ||
     (!cfg.allowFreezeAuthority && st.hasFreezeAuthority))

/-- The purchase step shared by both pipeline functions: with the
`sniperoo` provider outside simulation mode, `buyToken` is invoked; on a
false result `CURRENT_MINT` is reset to the empty string and the
evaluation ends as failed; otherwise (or when no live purchase is
configured) the evaluation completes with `CURRENT_MINT` still holding
the mint. -/
def buyPhase (cfg : Config) (mint : String) (buyResult : Bool) : EvalResult :=
  if cfg.buyProvider = "sniperoo" && !cfg.simMode then
    if !buyResult then ⟨Verdict.buyFailed, "", true⟩
    else ⟨Verdict.completed, mint, true⟩
  else ⟨Verdict.completed, mint, false⟩

/-- `processGrpcMint` of `index.ts`: duplicate suppression against
`CURRENT_MINT`, then the mode-selected check chain (`snipe`,
`pumpdump`, `full`; any other mode value matches no branch), then the
purchase step.  An error thrown by `getTokenAuthorities` is not caught
here and surfaces as `Verdict.errored`. -/
def processGrpcMint (cfg : Config) (currentMint returnedMint : String)
    (c : Collaborators) : EvalResult :=
  if currentMint = returnedMint then ⟨Verdict.droppedDuplicate, currentMint, false⟩
  else
    if CHECK_MODE cfg = "snipe" then
      match getTokenAuthorities returnedMint c.authorities with
      | Except.error _ => ⟨Verdict.errored, returnedMint, false⟩
      | Except.ok st =>
          if snipeRejects cfg st then ⟨Verdict.checkRejected, returnedMint, false⟩
          else buyPhase cfg returnedMint c.buyResult
    else if CHECK_MODE cfg = "pumpdump" then
      let isDevCheckPassed := isQuickRugPull returnedMint c.rugData
      if !isDevCheckPassed then ⟨Verdict.checkRejected, returnedMint, false⟩
      else buyPhase cfg returnedMint c.buyResult
    else if CHECK_MODE cfg = "full" then
      if strEndsWith (strToLower (strTrim returnedMint)) "pump" && cfg.ignoreEndsWithPump then
        ⟨Verdict.checkRejected, returnedMint, false⟩
      else if !c.rugCheckConfirmed then ⟨Verdict.checkRejected, returnedMint, false⟩
      else buyPhase cfg returnedMint c.buyResult
    else buyPhase cfg returnedMint c.buyResult

/-- `processWebsocketSignature` of `index.ts`: the signature is first
resolved to a mint (`resolved` is the answer of the external
`getMintFromSignature`; `none` or the empty string is a failed
resolution), then duplicate suppression, then the mode chain — this
path has only the `snipe` and `full` branches — then the purchase
step. -/
def processWebsocketSignature (cfg : Config) (currentMint : String)
    (resolved : Option String) (c : Collaborators) : EvalResult :=
  match resolved with
  | none => ⟨Verdict.noMint, currentMint, false⟩
  | some returnedMint =>
      if returnedMint = "" then ⟨Verdict.noMint, currentMint, false⟩
      else if currentMint = returnedMint then ⟨Verdict.droppedDuplicate, currentMint, false⟩
      else
        if CHECK_MODE cfg = "snipe" then
          match getTokenAuthorities returnedMint c.authorities with
          | Except.error _ => ⟨Verdict.errored, returnedMint, false⟩
          | Except.ok st =>
              if snipeRejects cfg st then ⟨Verdict.checkRejected, returnedMint, false⟩
              else buyPhase cfg returnedMint c.buyResult
        else if CHECK_MODE cfg = "full" then
          if strEndsWith (strToLower (strTrim returnedMint)) "pump" && cfg.ignoreEndsWithPump then
            ⟨Verdict.checkRejected, returnedMint, false⟩
          else if !c.rugCheckConfirmed then ⟨Verdict.checkRejected, returnedMint, false⟩
          else buyPhase cfg returnedMint c.buyResult
        else buyPhase cfg returnedMint c.buyResult

/-- The mutable state shared by the listeners, instrumented with the
number of increments and decrements performed on `activeTransactions`. -/
structure GateState where
  active : Nat
  currentMint : String
  incs : Nat
  decs : Nat
  deriving DecidableEq

/-- The websocket message handler of `startWebSocketListener`, from the
point where a validated pool-creation notification has been recognised:
if `activeTransactions >= MAX_CONCURRENT` the event is skipped with no
state change; otherwise the counter is incremented, the evaluation runs
(`processWebsocketSignature`), its error — if any — is swallowed by the
attached catch handler, and the finally handler decrements the counter.
The boolean reports whether an error escaped the handler (never, on this
path). -/
def wssHandleEvent (cfg : Config) (s : GateState) (resolved : Option String)
    (c : Collaborators) : GateState × Bool :=
  if s.active ≥ cfg.maxConcurrent then (s, false)
  else
    let r := processWebsocketSignature cfg s.currentMint resolved c
    (⟨s.active + 1 - 1, r.currentMint, s.incs + 1, s.decs + 1⟩, false)

/-- The gRPC data path from the point where `processGrpcData` has
resolved a mint: `processGrpcMint` runs with no interaction with
`activeTransactions`, and an error thrown inside it is handled by
nobody (`stream.on("data", ...)` discards the returned promise), so it
escapes as an unhandled rejection — reported by the boolean. -/
def grpcHandleMint (cfg : Config) (s : GateState) (mint : String)
    (c : Collaborators) : GateState × Bool :=
  let r := processGrpcMint cfg s.currentMint mint c
  (⟨s.active, r.currentMint, s.incs, s.decs⟩, r.verdict = Verdict.errored)

/-- Counter-level events: a validated websocket notification reaching
the concurrency gate, the finalization of an in-flight websocket
evaluation, and a validated gRPC update (whose processing never touches
the counter). -/
inductive GateEv where
  | wssArrive
  | wssFinalize
  | grpcArrive
  deriving DecidableEq

/-- Counter state: `activeTransactions`, the number of admitted
websocket evaluations not yet finalized, and the increment/decrement
history. -/
structure CounterState where
  active : Nat
  pending : Nat
  incs : Nat
  decs : Nat
  deriving DecidableEq

/-- One counter step.  A websocket arrival at or above the limit is
dropped unchanged; below the limit it increments the counter and admits
an evaluation.  A finalization decrements once per pending evaluation.
A gRPC arrival leaves the counter untouched (the gRPC path never reads
or writes `activeTransactions`). -/
def counterStep (limit : Nat) (s : CounterState) : GateEv → CounterState
  | GateEv.wssArrive =>
      if s.active ≥ limit then s
      else ⟨s.active + 1, s.pending + 1, s.incs + 1, s.decs⟩
  | GateEv.wssFinalize =>
      if s.pending = 0 then s
      else ⟨s.active - 1, s.pending - 1, s.incs, s.decs + 1⟩
  | GateEv.grpcArrive => s

/-- Run of the counter machine over a trace of events. -/
def counterRun (limit : Nat) (s : CounterState) : List GateEv → CounterState
  | [] => s
  | e :: rest => counterRun limit (counterStep limit s e) rest

/-- Initial counter state: `activeTransactions = 0`, nothing in flight. -/
def initCounter : CounterState := ⟨0, 0, 0, 0⟩

/-- Events delivered by the gRPC duplex stream. -/
inductive StreamEv where
  | dataEv
  | errorEv
  | endEv
  | closeEv
  deriving DecidableEq

/-- How the promise returned by `handleGrpcStates` settles. -/
inductive StreamOutcome where
  | resolved
  | rejectedErr
  | pending
  deriving DecidableEq

/-- `handleGrpcStates` of `index.ts`: data events are forwarded, the
first stream error rejects the promise (and ends the stream), the first
end or close event resolves it; with no terminal event the promise stays
pending. -/
def handleGrpcStates : List StreamEv → StreamOutcome
  | [] => StreamOutcome.pending
  | StreamEv.dataEv :: rest => handleGrpcStates rest
  | StreamEv.errorEv :: _ => StreamOutcome.rejectedErr
  | StreamEv.endEv :: _ => StreamOutcome.resolved
  | StreamEv.closeEv :: _ => StreamOutcome.resolved

/-- Final fate of the gRPC listening loop. -/
inductive ListenerOutcome where
  | terminatedError
  | terminatedClean
  | listening
  deriving DecidableEq

/-- `startGrpcListener` of `index.ts`: a failed subscription write, or a
rejection of `handleGrpcStates` (a stream error), is caught once, logged,
the stream is ended and the function returns — there is no reconnect or
backoff in this path; a resolved state promise likewise returns; only a
still-pending stream keeps the loop listening. -/
def startGrpcListener (subscribeOk : Bool) (evs : List StreamEv) : ListenerOutcome :=
  if !subscribeOk then ListenerOutcome.terminatedError
  else
    match handleGrpcStates evs with
    | StreamOutcome.rejectedErr => ListenerOutcome.terminatedError
    | StreamOutcome.resolved => ListenerOutcome.terminatedClean
    | StreamOutcome.pending => ListenerOutcome.listening

/-- A token balance entry, reduced to the field `getMintFromTokenBalances`
reads. -/
structure TokenBalance where
  mint : String
  deriving DecidableEq

/-- The fallback loop of `getMintFromTokenBalances`: first balance whose
mint differs from WSOL, else null. -/
def firstNonWsolMint (wsol : String) : List TokenBalance → Option String
  | [] => none
  | b :: rest => if b.mint ≠ wsol then some b.mint else firstNonWsolMint wsol rest

/-- `getMintFromTokenBalances` of `index.ts`: with exactly two balances,
return the one that is not WSOL (null when both are WSOL, the first when
neither is); otherwise return the first non-WSOL mint, or null. -/
def getMintFromTokenBalances (wsol : String) (tokenBalances : List TokenBalance) :
    Option String :=
  match tokenBalances with
  | [b1, b2] =>
      if b1.mint = wsol then (if b2.mint = wsol then none else some b2.mint)
      else if b2.mint = wsol then some b1.mint
      else some b1.mint
  | bs => firstNonWsolMint wsol bs

/-- The fields of an upstream API error inspected by the buy handler. -/
structure ApiError where
  isAxiosError : Bool
  status : Option Nat
  codeError : Option String
  message : Option String
  deriving DecidableEq

/-- One API response: success (2xx) or a thrown error. -/
inductive ApiResult where
  | success
  | failure (e : ApiError)
  deriving DecidableEq

/-- The retry bound of `buyToken`. -/
def MAX_RETRIES : Nat := 3

/-- The fixed delay, in milliseconds, between buy attempts. -/
def RETRY_DELAY : Nat := 200

/-- The upstream error message treated as transient. -/
def RETRY_MESSAGE : String := "Transaction failed due to an unknown reason"

/-- The one transient-error signature `buyToken` retries on: an axios
error with HTTP status 400, `code_error` equal to
`INTERNAL_SERVER_ERROR`, and a message containing the known text. -/
def isRetryableError (e : ApiError) : Bool :=
  e.isAxiosError && e.status == some 400 &&
    e.codeError == some "INTERNAL_SERVER_ERROR" &&
    (match e.message with
     | some m => strIncludes m RETRY_MESSAGE
     | none => false)

/-- The request body fields sent to the buy endpoint. -/
structure RequestBody where
  tokenAddress : String
  inputAmount : ℚ
  autoSellEnabled : Bool
  profitPercentage : ℚ
  stopLossPercentage : ℚ
  deriving DecidableEq

/-- Observable outcome of `buyToken`: the returned boolean, the request
bodies actually sent, and the number of 200 ms delays performed. -/
structure BuyOutcome where
  result : Bool
  requests : List RequestBody
  delays : Nat
  deriving DecidableEq

/-- The per-attempt auto-sell adjustment of the Sniperoo handler: a
falsy (zero) take-profit or stop-loss forces the sell flag off. -/
def sellAdjust (sell : Bool) (tp sl : ℚ) : Bool :=
  if tp = 0 ∨ sl = 0 then false else sell

/-- `attemptBuyToken` of the Sniperoo handler.  Each attempt validates
the inputs (empty or whitespace-only address, or a non-positive amount,
returns false with no request), disables auto-sell when take-profit or
stop-loss is falsy, issues the request, and on a retryable error with
`retryCount < MAX_RETRIES` waits `RETRY_DELAY` ms and recurses; any
other error returns false.  `responses` is the oracle of successive API
answers. -/
def attemptBuyToken (tokenAddress : String) (inputAmount : ℚ) (sell : Bool)
    (tp sl : ℚ) (retryCount : Nat) : List ApiResult → BuyOutcome
  | [] => ⟨false, [], 0⟩
  | r :: rest =>
      if strTrim tokenAddress = "" then ⟨false, [], 0⟩
      else if inputAmount ≤ 0 then ⟨false, [], 0⟩
      else
        let sellFlag := sellAdjust sell tp sl
        let req : RequestBody := ⟨tokenAddress, inputAmount, sellFlag, tp, sl⟩
        match r with
        | ApiResult.success => ⟨true, [req], 0⟩
        | ApiResult.failure e =>
            if isRetryableError e ∧ retryCount < MAX_RETRIES then
              let o := attemptBuyToken tokenAddress inputAmount sellFlag tp sl
                (retryCount + 1) rest
              ⟨o.result, req :: o.requests, o.delays + 1⟩
            else ⟨false, [req], 0⟩

/-- `buyToken`: start with retry count 0. -/
def buyToken (tokenAddress : String) (inputAmount : ℚ) (sell : Bool)
    (tp sl : ℚ) (responses : List ApiResult) : BuyOutcome :=
  attemptBuyToken tokenAddress inputAmount sell tp sl 0 responses

/-! ## Helper lemmas -/

theorem firstNonWsolMint_all_wsol (wsol : String) :
    ∀ l : List TokenBalance, (∀ x ∈ l, x.mint = wsol) →
      firstNonWsolMint wsol l = none := by
  intro l
  induction l with
  | nil => intro _; rfl
  | cons b rest ih =>
      intro h
      have hb : b.mint = wsol := h b (List.mem_cons_self b rest)
      simp [firstNonWsolMint, hb]
      exact ih fun x hx => h x (List.mem_cons_of_mem b hx)

theorem getMintFromTokenBalances_all_wsol (wsol : String) :
    ∀ l : List TokenBalance, (∀ x ∈ l, x.mint = wsol) →
      getMintFromTokenBalances wsol l = none := by
  intro l h
  match l with
  | [] => rfl
  | [b1] =>
      have h1 : b1.mint = wsol := h b1 (by simp)
      simp [getMintFromTokenBalances, firstNonWsolMint, h1]
  | [b1, b2] =>
      have h1 : b1.mint = wsol := h b1 (by simp)
      have h2 : b2.mint = wsol := h b2 (by simp)
      simp [getMintFromTokenBalances, h1, h2]
  | b1 :: b2 :: b3 :: rest =>
      simp only [getMintFromTokenBalances]
      exact firstNonWsolMint_all_wsol wsol _ h

/-! ## Claims -/

/-- Claim C1 (code bug): in pumpdump mode the quick-rug-pull heuristic
reports true exactly when the elapsed time since the earliest observed
activity exceeds 60 seconds, but, contrary to the claim (and to the
collaborator's own documentation), the pipeline treats a true report as
a passed check and proceeds to the purchase step, and treats a false
report as a failed check and rejects.  Evaluated at concrete inputs:
heuristic true (elapsed 100 s) leads to a completed purchase, heuristic
false (elapsed 30 s) leads to rejection. -/
theorem c1_pumpdump_polarity :
    isQuickRugPull "TokenA" (Except.ok ⟨1, some 100, 200⟩) = true ∧
    processGrpcMint ⟨some "pumpdump", false, false, true, "sniperoo", false, 1, "W"⟩
        "" "TokenA" ⟨Except.ok ⟨none, none⟩, Except.ok ⟨1, some 100, 200⟩, true, true⟩ =
      ⟨Verdict.completed, "TokenA", true⟩ ∧
    isQuickRugPull "TokenB" (Except.ok ⟨1, some 130, 160⟩) = false ∧
    processGrpcMint ⟨some "pumpdump", false, false, true, "sniperoo", false, 1, "W"⟩
        "" "TokenB" ⟨Except.ok ⟨none, none⟩, Except.ok ⟨1, some 130, 160⟩, true, true⟩ =
      ⟨Verdict.checkRejected, "TokenB", false⟩ := by decide

/-- Claim C5 is refuted: for the unrecognized mode value "yolo", an
identifier ending in the rejection suffix with suffix rejection enabled
and a failing rug check is nevertheless purchased (no check of the full
chain runs), while the same input under mode "full" is rejected by the
suffix check. -/
theorem c5_counterexample :
    processGrpcMint ⟨some "yolo", false, false, true, "sniperoo", false, 1, "W"⟩
        "" "Apump" ⟨Except.ok ⟨some "m", none⟩, Except.error (), false, true⟩ =
      ⟨Verdict.completed, "Apump", true⟩ ∧
    processGrpcMint ⟨some "full", false, false, true, "sniperoo", false, 1, "W"⟩
        "" "Apump" ⟨Except.ok ⟨some "m", none⟩, Except.error (), false, true⟩ =
      ⟨Verdict.checkRejected, "Apump", false⟩ := by decide

/-- Claim C5 (amended): in both pipeline variants, an unspecified or
empty decision mode defaults to "full" and the full chain applies, but
a non-empty mode value outside the recognized set matches no check
branch: the pipeline proceeds directly to the purchase step, with no
check consulted. -/
theorem c5_mode_defaulting (cfg : Config) (currentMint mint : String)
    (c : Collaborators) :
    processGrpcMint { cfg with checkMode := none } currentMint mint c =
      processGrpcMint { cfg with checkMode := some "full" } currentMint mint c ∧
    processGrpcMint { cfg with checkMode := some "" } currentMint mint c =
      processGrpcMint { cfg with checkMode := some "full" } currentMint mint c ∧
    (∀ m, cfg.checkMode = some m → m ≠ "" → m ≠ "snipe" → m ≠ "pumpdump" →
      m ≠ "full" → currentMint ≠ mint →
      processGrpcMint cfg currentMint mint c = buyPhase cfg mint c.buyResult) ∧
    (∀ resolved,
      processWebsocketSignature { cfg with checkMode := none } currentMint resolved c =
        processWebsocketSignature { cfg with checkMode := some "full" } currentMint
          resolved c) ∧
    (∀ resolved,
      processWebsocketSignature { cfg with checkMode := some "" } currentMint resolved c =
        processWebsocketSignature { cfg with checkMode := some "full" } currentMint
          resolved c) ∧
    (∀ m, cfg.checkMode = some m → m ≠ "" → m ≠ "snipe" → m ≠ "pumpdump" →
      m ≠ "full" → mint ≠ "" → currentMint ≠ mint →
      processWebsocketSignature cfg currentMint (some mint) c =
        buyPhase cfg mint c.buyResult) := by
  refine ⟨rfl, rfl, ?_, fun _ => rfl, fun _ => rfl, ?_⟩
  · intro m hm hne hs hp hf hdup
    simp [processGrpcMint, CHECK_MODE, hm, hne, hs, hp, hf, hdup]
  · intro m hm hne hs hp hf hmint hdup
    simp [processWebsocketSignature, CHECK_MODE, hm, hne, hs, hp, hf, hmint, hdup]

/-- Witness for the amended C5 at a concrete unrecognized mode, on both
pipeline variants. -/
theorem c5_witness :
    processGrpcMint ⟨some "zz", false, false, true, "sniperoo", false, 1, "W"⟩
        "" "M" ⟨Except.error (), Except.error (), false, true⟩ =
      buyPhase ⟨some "zz", false, false, true, "sniperoo", false, 1, "W"⟩ "M" true ∧
    processWebsocketSignature ⟨some "zz", false, false, true, "sniperoo", false, 1, "W"⟩
        "" (some "M") ⟨Except.error (), Except.error (), false, true⟩ =
      buyPhase ⟨some "zz", false, false, true, "sniperoo", false, 1, "W"⟩ "M" true :=
  ⟨(c5_mode_defaulting ⟨some "zz", false, false, true, "sniperoo", false, 1, "W"⟩
      "" "M" ⟨Except.error (), Except.error (), false, true⟩).2.2.1 "zz" rfl
    (by decide) (by decide) (by decide) (by decide) (by decide),
   (c5_mode_defaulting ⟨some "zz", false, false, true, "sniperoo", false, 1, "W"⟩
      "" "M" ⟨Except.error (), Except.error (), false, true⟩).2.2.2.2.2 "zz" rfl
    (by decide) (by decide) (by decide) (by decide) (by decide) (by decide)⟩

/-- Claim C7 is refuted: a gRPC stream error terminates the listening
loop (the state promise rejects, the subscription catch handler logs and
ends the stream, and the listener returns) — no reconnect is attempted
although no shutdown occurred and no reconnect attempts were exhausted. -/
theorem c7_counterexample :
    startGrpcListener true [StreamEv.dataEv, StreamEv.errorEv, StreamEv.dataEv] =
      ListenerOutcome.terminatedError := by decide

/-- Claim C7 (amended): on the gRPC transport, the first stream error
rejects the state promise and the listening loop terminates with an
error outcome; there is no backoff reconnect in this path, and the loop
keeps listening only while no terminal stream event has occurred. -/
theorem c7_grpc_error_terminates (pre post : List StreamEv)
    (hpre : ∀ e ∈ pre, e = StreamEv.dataEv) :
    handleGrpcStates (pre ++ StreamEv.errorEv :: post) = StreamOutcome.rejectedErr ∧
    startGrpcListener true (pre ++ StreamEv.errorEv :: post) =
      ListenerOutcome.terminatedError ∧
    (∀ evs, startGrpcListener true evs = ListenerOutcome.listening ↔
      handleGrpcStates evs = StreamOutcome.pending) := by
  have hstates : handleGrpcStates (pre ++ StreamEv.errorEv :: post) =
      StreamOutcome.rejectedErr := by
    induction pre with
    | nil => rfl
    | cons e rest ih =>
        have he : e = StreamEv.dataEv := hpre e (List.mem_cons_self e rest)
        subst he
        simp only [List.cons_append, handleGrpcStates]
        exact ih fun x hx => hpre x (List.mem_cons_of_mem _ hx)
  refine ⟨hstates, ?_, ?_⟩
  · simp [startGrpcListener, hstates]
  · intro evs
    cases h : handleGrpcStates evs <;> simp [startGrpcListener, h]

/-- Witness for the amended C7 on a concrete trace. -/
theorem c7_witness :
    startGrpcListener true [StreamEv.dataEv, StreamEv.errorEv] =
      ListenerOutcome.terminatedError :=
  (c7_grpc_error_terminates [StreamEv.dataEv] [] (by decide)).2.1

/-- Claim C8: the stream-variant mint resolution returns the non-base
asset of a two-element balance list, nothing when both are the base
asset, the first non-base asset of a longer list, and nothing when no
balance differs from the base asset. -/
theorem c8_stream_mint_resolution (wsol a b : String) (ha : a ≠ wsol) :
    getMintFromTokenBalances wsol [⟨a⟩, ⟨wsol⟩] = some a ∧
    getMintFromTokenBalances wsol [⟨wsol⟩, ⟨wsol⟩] = none ∧
    getMintFromTokenBalances wsol [⟨wsol⟩, ⟨a⟩, ⟨b⟩] = some a ∧
    (∀ l : List TokenBalance, (∀ x ∈ l, x.mint = wsol) →
      getMintFromTokenBalances wsol l = none) := by
  refine ⟨?_, ?_, ?_, getMintFromTokenBalances_all_wsol wsol⟩
  · simp [getMintFromTokenBalances, ha]
  · simp [getMintFromTokenBalances]
  · simp [getMintFromTokenBalances, firstNonWsolMint, ha]

/-- Witness for C8 at concrete identifiers. -/
theorem c8_witness :
    getMintFromTokenBalances "WSOL" [⟨"AAA"⟩, ⟨"WSOL"⟩] = some "AAA" :=
  (c8_stream_mint_resolution "WSOL" "AAA" "BBB" (by decide)).1

theorem buyPhase_cases (cfg : Config) (mint : String) (b : Bool) :
    buyPhase cfg mint b = ⟨Verdict.buyFailed, "", true⟩ ∨
    buyPhase cfg mint b = ⟨Verdict.completed, mint, true⟩ ∨
    buyPhase cfg mint b = ⟨Verdict.completed, mint, false⟩ := by
  unfold buyPhase
  split
  · split
    · exact Or.inl rfl
    · exact Or.inr (Or.inl rfl)
  · exact Or.inr (Or.inr rfl)

theorem processGrpcMint_cases (cfg : Config) (cur mint : String) (c : Collaborators)
    (h : cur ≠ mint) :
    processGrpcMint cfg cur mint c = ⟨Verdict.errored, mint, false⟩ ∨
    processGrpcMint cfg cur mint c = ⟨Verdict.checkRejected, mint, false⟩ ∨
    processGrpcMint cfg cur mint c = buyPhase cfg mint c.buyResult := by
  unfold processGrpcMint
  rw [if_neg h]
  split
  · split
    · exact Or.inl rfl
    · split
      · exact Or.inr (Or.inl rfl)
      · exact Or.inr (Or.inr rfl)
  · split
    · dsimp only
      split
      · exact Or.inr (Or.inl rfl)
      · exact Or.inr (Or.inr rfl)
    · split
      · split
        · exact Or.inr (Or.inl rfl)
        · split
          · exact Or.inr (Or.inl rfl)
          · exact Or.inr (Or.inr rfl)
      · exact Or.inr (Or.inr rfl)

theorem processWebsocketSignature_cases (cfg : Config) (cur mint : String)
    (c : Collaborators) (hm : mint ≠ "") (h : cur ≠ mint) :
    processWebsocketSignature cfg cur (some mint) c = ⟨Verdict.errored, mint, false⟩ ∨
    processWebsocketSignature cfg cur (some mint) c = ⟨Verdict.checkRejected, mint, false⟩ ∨
    processWebsocketSignature cfg cur (some mint) c = buyPhase cfg mint c.buyResult := by
  unfold processWebsocketSignature
  simp only [if_neg hm, if_neg h]
  split
  · split
    · exact Or.inl rfl
    · split
      · exact Or.inr (Or.inl rfl)
      · exact Or.inr (Or.inr rfl)
  · split
    · split
      · exact Or.inr (Or.inl rfl)
      · split
        · exact Or.inr (Or.inl rfl)
        · exact Or.inr (Or.inr rfl)
    · exact Or.inr (Or.inr rfl)

/-- Claim C6: while an identifier is held in the last-seen slot an
identical candidate is dropped; the slot is cleared to empty exactly
when the purchase action reports failure, so a later event with the
same (non-empty) identifier is no longer dropped as a duplicate; check
rejection and purchase completion leave the slot holding the
identifier.  Stated for both pipeline variants. -/
theorem c6_last_seen_lifecycle (cfg : Config) (cur mint : String) (c : Collaborators)
    (hm : mint ≠ "") :
    (cur = mint → processGrpcMint cfg cur mint c =
      ⟨Verdict.droppedDuplicate, cur, false⟩) ∧
    (cur ≠ mint →
      ((processGrpcMint cfg cur mint c).currentMint = "" ↔
        (processGrpcMint cfg cur mint c).verdict = Verdict.buyFailed) ∧
      ((processGrpcMint cfg cur mint c).verdict = Verdict.checkRejected ∨
        (processGrpcMint cfg cur mint c).verdict = Verdict.completed →
        (processGrpcMint cfg cur mint c).currentMint = mint) ∧
      ((processGrpcMint cfg cur mint c).verdict = Verdict.buyFailed →
        ∀ c2 : Collaborators,
          (processGrpcMint cfg (processGrpcMint cfg cur mint c).currentMint mint c2).verdict ≠
            Verdict.droppedDuplicate)) ∧
    (cur = mint → processWebsocketSignature cfg cur (some mint) c =
      ⟨Verdict.droppedDuplicate, cur, false⟩) ∧
    (cur ≠ mint →
      ((processWebsocketSignature cfg cur (some mint) c).currentMint = "" ↔
        (processWebsocketSignature cfg cur (some mint) c).verdict = Verdict.buyFailed)) := by
  refine ⟨?_, ?_, ?_, ?_⟩
  · intro h
    simp [processGrpcMint, h]
  · intro h
    have hc := processGrpcMint_cases cfg cur mint c h
    have hb := buyPhase_cases cfg mint c.buyResult
    refine ⟨?_, ?_, ?_⟩
    · rcases hc with hc | hc | hc <;> rw [hc] <;>
        first
          | simp [hm]
          | (rcases hb with hb | hb | hb <;> rw [hb] <;> simp [hm])
    · intro hv
      rcases hc with hc | hc | hc <;> rw [hc] at hv ⊢ <;>
        first
          | simp at hv
          | rfl
          | (rcases hb with hb | hb | hb <;> rw [hb] at hv ⊢ <;> simp_all)
    · intro hv c2
      have hcur : (processGrpcMint cfg cur mint c).currentMint = "" := by
        rcases hc with hc | hc | hc <;> rw [hc] at hv ⊢ <;>
          first
            | simp at hv
            | (rcases hb with hb | hb | hb <;> rw [hb] at hv ⊢ <;> simp_all)
      rw [hcur]
      have hne : ("" : String) ≠ mint := fun hcontra => hm hcontra.symm
      rcases processGrpcMint_cases cfg "" mint c2 hne with hc2 | hc2 | hc2 <;> rw [hc2]
      · simp
      · simp
      · rcases buyPhase_cases cfg mint c2.buyResult with hb2 | hb2 | hb2 <;>
          rw [hb2] <;> simp
  · intro h
    simp [processWebsocketSignature, hm, h]
  · intro h
    have hc := processWebsocketSignature_cases cfg cur mint c hm h
    have hb := buyPhase_cases cfg mint c.buyResult
    rcases hc with hc | hc | hc <;> rw [hc] <;>
      first
        | simp [hm]
        | (rcases hb with hb | hb | hb <;> rw [hb] <;> simp [hm])

/-- Witness for C6: a duplicate identifier is dropped, and a cleared
slot admits the same identifier again after a failed purchase. -/
theorem c6_witness :
    processGrpcMint ⟨some "full", false, false, true, "sniperoo", false, 1, "W"⟩
        "M" "M" ⟨Except.error (), Except.error (), true, false⟩ =
      ⟨Verdict.droppedDuplicate, "M", false⟩ :=
  (c6_last_seen_lifecycle ⟨some "full", false, false, true, "sniperoo", false, 1, "W"⟩
      "M" "M" ⟨Except.error (), Except.error (), true, false⟩ (by decide)).1 rfl

/-- Claim C4 is refuted: in snipe mode an authority-lookup error is
rethrown out of the evaluation (verdict errored, not a check-failed
rejection), and on the gRPC data path nothing handles it, so it escapes
the pipeline as an unhandled rejection (the boolean flag). -/
theorem c4_counterexample :
    (processGrpcMint ⟨some "snipe", false, false, true, "sniperoo", false, 1, "W"⟩
        "" "TokenC" ⟨Except.error (), Except.ok ⟨0, none, 0⟩, true, true⟩).verdict =
      Verdict.errored ∧
    grpcHandleMint ⟨some "snipe", false, false, true, "sniperoo", false, 1, "W"⟩
        ⟨0, "", 0, 0⟩ "TokenC" ⟨Except.error (), Except.ok ⟨0, none, 0⟩, true, true⟩ =
      (⟨0, "TokenC", 0, 0⟩, true) := by decide

/-- Claim C4 (amended): an error inside the quick-rug-pull heuristic is
caught by the collaborator and treated as check-failed (rejected, no
purchase); an authority-lookup error, however, is rethrown: the
evaluation ends errored with no purchase, the websocket path catches it
in its per-evaluation handler (nothing escapes there), but the gRPC
path has no handler, so the error escapes the pipeline. -/
theorem c4_check_error_handling (cfg : Config) (s : GateState) (cur mint : String)
    (c : Collaborators) :
    (CHECK_MODE cfg = "pumpdump" → c.rugData = Except.error () → cur ≠ mint →
      processGrpcMint cfg cur mint c = ⟨Verdict.checkRejected, mint, false⟩) ∧
    (CHECK_MODE cfg = "snipe" → c.authorities = Except.error () → cur ≠ mint →
      processGrpcMint cfg cur mint c = ⟨Verdict.errored, mint, false⟩) ∧
    (CHECK_MODE cfg = "snipe" → c.authorities = Except.error () →
      s.currentMint ≠ mint → (grpcHandleMint cfg s mint c).2 = true) ∧
    (∀ resolved, (wssHandleEvent cfg s resolved c).2 = false) := by
  have hpump : CHECK_MODE cfg = "pumpdump" → c.rugData = Except.error () →
      cur ≠ mint → processGrpcMint cfg cur mint c =
        ⟨Verdict.checkRejected, mint, false⟩ := by
    intro hmode herr hdup
    have hq : isQuickRugPull mint c.rugData = false := by
      rw [herr]
      unfold isQuickRugPull
      split
      · rfl
      · rfl
    simp [processGrpcMint, hmode, hdup, hq]
  have hsnipe : ∀ cur2 : String, cur2 ≠ mint → CHECK_MODE cfg = "snipe" →
      c.authorities = Except.error () → processGrpcMint cfg cur2 mint c =
        ⟨Verdict.errored, mint, false⟩ := by
    intro cur2 hdup hmode herr
    have ha : getTokenAuthorities mint c.authorities = Except.error () := by
      rw [herr]
      unfold getTokenAuthorities
      split
      · rfl
      · rfl
    simp [processGrpcMint, hmode, hdup, ha]
  refine ⟨hpump, fun hmode herr hdup => hsnipe cur hdup hmode herr, ?_, ?_⟩
  · intro hmode herr hdup
    simp [grpcHandleMint, hsnipe s.currentMint hdup hmode herr]
  · intro resolved
    unfold wssHandleEvent
    split
    · rfl
    · rfl

/-- Witness for the amended C4 at concrete inputs: a failing
quick-rug-pull fetch yields a rejection with no purchase. -/
theorem c4_witness :
    processGrpcMint ⟨some "pumpdump", false, false, true, "sniperoo", false, 1, "W"⟩
        "" "M" ⟨Except.ok ⟨none, none⟩, Except.error (), true, true⟩ =
      ⟨Verdict.checkRejected, "M", false⟩ :=
  (c4_check_error_handling ⟨some "pumpdump", false, false, true, "sniperoo", false, 1, "W"⟩
      ⟨0, "", 0, 0⟩ "" "M" ⟨Except.ok ⟨none, none⟩, Except.error (), true, true⟩).1
    (by decide) rfl (by decide)

/-- Claim C2 is refuted: on the websocket path the in-flight counter is
incremented before identifier resolution and the duplicate check, so it
is incremented (and later decremented on finalization) both for an
event whose resolution fails and for an event dropped as a duplicate. -/
theorem c2_counterexample :
    wssHandleEvent ⟨some "full", false, false, true, "x", true, 2, "W"⟩
        ⟨0, "", 0, 0⟩ none ⟨Except.error (), Except.error (), true, true⟩ =
      (⟨0, "", 1, 1⟩, false) ∧
    wssHandleEvent ⟨some "full", false, false, true, "x", true, 2, "W"⟩
        ⟨0, "A", 0, 0⟩ (some "A") ⟨Except.error (), Except.error (), true, true⟩ =
      (⟨0, "A", 1, 1⟩, false) := by decide

/-- Claim C2 (amended): on the websocket path the backpressure check
comes first (an event at or above the limit is dropped with no state
change), and an admitted event increments the counter before identifier
resolution and the duplicate check run inside the evaluation — a failed
resolution or a duplicate leaves the last-seen slot unchanged but has
already incremented (and, on finalization, decremented) the counter; on
the gRPC path the duplicate check runs with no counter interaction. -/
theorem c2_gate_order (cfg : Config) (s : GateState) (resolved : Option String)
    (c : Collaborators) :
    (cfg.maxConcurrent ≤ s.active → wssHandleEvent cfg s resolved c = (s, false)) ∧
    (s.active < cfg.maxConcurrent →
      wssHandleEvent cfg s resolved c =
        (⟨s.active, (processWebsocketSignature cfg s.currentMint resolved c).currentMint,
          s.incs + 1, s.decs + 1⟩, false)) ∧
    processWebsocketSignature cfg s.currentMint none c =
      ⟨Verdict.noMint, s.currentMint, false⟩ ∧
    (∀ m, m ≠ "" → s.currentMint = m →
      processWebsocketSignature cfg s.currentMint (some m) c =
        ⟨Verdict.droppedDuplicate, s.currentMint, false⟩) ∧
    (∀ mint, grpcHandleMint cfg s mint c =
      (⟨s.active, (processGrpcMint cfg s.currentMint mint c).currentMint,
        s.incs, s.decs⟩,
       decide ((processGrpcMint cfg s.currentMint mint c).verdict = Verdict.errored))) := by
  refine ⟨?_, ?_, rfl, ?_, fun _ => rfl⟩
  · intro hle
    unfold wssHandleEvent
    rw [if_pos hle]
  · intro hlt
    unfold wssHandleEvent
    rw [if_neg (by omega)]
    simp
  · intro m hm hcur
    simp [processWebsocketSignature, hm, hcur]

/-- Witness for the amended C2: an event arriving at the limit is
dropped with no state change. -/
theorem c2_witness :
    wssHandleEvent ⟨some "full", false, false, true, "x", true, 2, "W"⟩
        ⟨2, "B", 5, 5⟩ (some "Z") ⟨Except.error (), Except.error (), true, true⟩ =
      (⟨2, "B", 5, 5⟩, false) :=
  (c2_gate_order ⟨some "full", false, false, true, "x", true, 2, "W"⟩
      ⟨2, "B", 5, 5⟩ (some "Z") ⟨Except.error (), Except.error (), true, true⟩).1
    (by decide)

theorem counterRun_inv (limit : Nat) :
    ∀ (tr : List GateEv) (s : CounterState),
      s.active = s.pending → s.active ≤ limit → s.incs = s.decs + s.active →
      (counterRun limit s tr).active = (counterRun limit s tr).pending ∧
      (counterRun limit s tr).active ≤ limit ∧
      (counterRun limit s tr).incs =
        (counterRun limit s tr).decs + (counterRun limit s tr).active := by
  intro tr
  induction tr with
  | nil => intro s h1 h2 h3; exact ⟨h1, h2, h3⟩
  | cons e rest ih =>
      intro s h1 h2 h3
      have hstep : (counterStep limit s e).active = (counterStep limit s e).pending ∧
          (counterStep limit s e).active ≤ limit ∧
          (counterStep limit s e).incs =
            (counterStep limit s e).decs + (counterStep limit s e).active := by
        cases e with
        | wssArrive =>
            simp only [counterStep]
            split
            · exact ⟨h1, h2, h3⟩
            · refine ⟨?_, ?_, ?_⟩ <;> dsimp only <;> omega
        | wssFinalize =>
            simp only [counterStep]
            split
            · exact ⟨h1, h2, h3⟩
            · refine ⟨?_, ?_, ?_⟩ <;> dsimp only <;> omega
        | grpcArrive => exact ⟨h1, h2, h3⟩
      exact ih _ hstep.1 hstep.2.1 hstep.2.2

/-- Claim C3 is refuted on the gRPC transport: a fully finalized,
admitted (non-duplicate) gRPC evaluation — here one ending in a
completed purchase — performs no decrement at all (and no increment):
the counter state is untouched, contradicting that each admitted
evaluation decrements the counter exactly once. -/
theorem c3_counterexample :
    processGrpcMint ⟨some "full", false, false, true, "sniperoo", false, 3, "W"⟩
        "" "TokenD" ⟨Except.error (), Except.error (), true, true⟩ =
      ⟨Verdict.completed, "TokenD", true⟩ ∧
    grpcHandleMint ⟨some "full", false, false, true, "sniperoo", false, 3, "W"⟩
        ⟨0, "", 0, 0⟩ "TokenD" ⟨Except.error (), Except.error (), true, true⟩ =
      (⟨0, "TokenD", 0, 0⟩, false) := by decide

/-- Claim C3 (amended): on the websocket transport the in-flight counter
stays within 0 and the configured limit, the outstanding increments
always equal the decrements plus the in-flight count (each admitted
evaluation accounts for exactly one later decrement), the counter is 0
whenever nothing is in flight, and an arrival at the limit is dropped
unchanged; a gRPC arrival never modifies the counter state. -/
theorem c3_counter_invariant (limit : Nat) (tr : List GateEv) :
    (counterRun limit initCounter tr).active ≤ limit ∧
    (counterRun limit initCounter tr).incs =
      (counterRun limit initCounter tr).decs +
        (counterRun limit initCounter tr).active ∧
    ((counterRun limit initCounter tr).pending = 0 →
      (counterRun limit initCounter tr).active = 0) ∧
    (∀ u : CounterState, limit ≤ u.active →
      counterStep limit u GateEv.wssArrive = u) ∧
    (∀ u : CounterState, counterStep limit u GateEv.grpcArrive = u) := by
  have h := counterRun_inv limit tr initCounter rfl (Nat.zero_le _) rfl
  refine ⟨h.2.1, h.2.2, ?_, ?_, fun u => rfl⟩
  · intro hp
    rw [h.1]
    exact hp
  · intro u hu
    simp only [counterStep]
    exact if_pos hu

/-- Witness for the amended C3: an arrival at the limit leaves the
counter state unchanged. -/
theorem c3_witness :
    counterStep 2 ⟨2, 2, 7, 5⟩ GateEv.wssArrive = ⟨2, 2, 7, 5⟩ :=
  (c3_counter_invariant 2 []).2.2.2.1 ⟨2, 2, 7, 5⟩ (by decide)

theorem attemptBuyToken_requests_le (addr : String) (amt : ℚ) (tp sl : ℚ) :
    ∀ (resp : List ApiResult) (sell : Bool) (rc : Nat),
      (attemptBuyToken addr amt sell tp sl rc resp).requests.length ≤
        MAX_RETRIES - rc + 1 := by
  intro resp
  induction resp with
  | nil => intro sell rc; simp [attemptBuyToken]
  | cons r rest ih =>
      intro sell rc
      simp only [attemptBuyToken]
      split
      · simp
      · split
        · simp
        · cases r with
          | success => simp
          | failure e =>
              dsimp only
              split
              · have h := ih (sellAdjust sell tp sl) (rc + 1)
                simp only [List.length_cons]
                omega
              · simp

theorem attemptBuyToken_delays_le (addr : String) (amt : ℚ) (tp sl : ℚ) :
    ∀ (resp : List ApiResult) (sell : Bool) (rc : Nat),
      (attemptBuyToken addr amt sell tp sl rc resp).delays ≤ MAX_RETRIES - rc := by
  intro resp
  induction resp with
  | nil => intro sell rc; simp [attemptBuyToken]
  | cons r rest ih =>
      intro sell rc
      simp only [attemptBuyToken]
      split
      · simp
      · split
        · simp
        · cases r with
          | success => simp
          | failure e =>
              dsimp only
              split
              · next hret =>
                  have h := ih (sellAdjust sell tp sl) (rc + 1)
                  dsimp only
                  omega
              · simp

theorem attemptBuyToken_autosell_false (addr : String) (amt : ℚ) (tp sl : ℚ)
    (h : tp = 0 ∨ sl = 0) :
    ∀ (resp : List ApiResult) (sell : Bool) (rc : Nat),
      ∀ req ∈ (attemptBuyToken addr amt sell tp sl rc resp).requests,
        req.autoSellEnabled = false := by
  intro resp
  induction resp with
  | nil => intro sell rc req hreq; simp [attemptBuyToken] at hreq
  | cons r rest ih =>
      intro sell rc req hreq
      simp only [attemptBuyToken] at hreq
      split at hreq
      · simp at hreq
      · split at hreq
        · simp at hreq
        · cases r with
          | success =>
              simp at hreq
              rw [hreq]
              simp [sellAdjust, h]
          | failure e =>
              dsimp only at hreq
              split at hreq
              · rw [List.mem_cons] at hreq
                rcases hreq with hreq | hreq
                · rw [hreq]
                  simp [sellAdjust, h]
                · exact ih (sellAdjust sell tp sl) (rc + 1) req hreq
              · simp at hreq
                rw [hreq]
                simp [sellAdjust, h]

/-- Claim C9: the buy action retries only on the one transient-error
signature (axios error, HTTP 400, code INTERNAL_SERVER_ERROR, known
message text — the definition of isRetryableError), performs at most
MAX_RETRIES = 3 retries with a fixed RETRY_DELAY = 200 ms delay before
each, and any non-matching error ends the attempt at once with a false
result (the function returns, it never throws). -/
theorem c9_buy_retry_policy (addr : String) (amt : ℚ) (sell : Bool) (tp sl : ℚ)
    (responses : List ApiResult) :
    (buyToken addr amt sell tp sl responses).requests.length ≤ MAX_RETRIES + 1 ∧
    (buyToken addr amt sell tp sl responses).delays ≤ MAX_RETRIES ∧
    MAX_RETRIES = 3 ∧ RETRY_DELAY = 200 ∧
    (∀ e rest, responses = ApiResult.failure e :: rest → isRetryableError e = false →
      (buyToken addr amt sell tp sl responses).result = false ∧
      (buyToken addr amt sell tp sl responses).delays = 0 ∧
      (buyToken addr amt sell tp sl responses).requests.length ≤ 1) ∧
    ((buyToken addr amt sell tp sl responses).delays ≠ 0 →
      ∃ e rest, responses = ApiResult.failure e :: rest ∧ isRetryableError e = true) := by
  have hlen := attemptBuyToken_requests_le addr amt tp sl responses sell 0
  have hdel := attemptBuyToken_delays_le addr amt tp sl responses sell 0
  refine ⟨by simpa using hlen, by simpa using hdel, rfl, rfl, ?_, ?_⟩
  · intro e rest hresp hnr
    subst hresp
    simp only [buyToken, attemptBuyToken]
    by_cases h1 : strTrim addr = ""
    · rw [if_pos h1]
      exact ⟨rfl, rfl, by simp⟩
    · rw [if_neg h1]
      by_cases h2 : amt ≤ 0
      · rw [if_pos h2]
        exact ⟨rfl, rfl, by simp⟩
      · rw [if_neg h2, if_neg (by simp [hnr])]
        exact ⟨rfl, rfl, by simp⟩
  · intro hne
    cases responses with
    | nil => exact absurd rfl hne
    | cons r rest =>
        cases r with
        | success =>
            simp only [buyToken, attemptBuyToken] at hne
            repeat' split at hne
            all_goals exact absurd rfl hne
        | failure e =>
            simp only [buyToken, attemptBuyToken] at hne
            repeat' split at hne
            all_goals
              first
                | exact absurd rfl hne
                | exact ⟨e, rest, rfl,
                    (show isRetryableError e = true ∧ 0 < MAX_RETRIES by assumption).1⟩

/-- Witness for C9: a non-matching error (here not even an axios error)
ends the attempt at once with a false result. -/
theorem c9_witness :
    (buyToken "a" (1 : ℚ) true 5 5
      [ApiResult.failure ⟨false, some 500, none, none⟩]).result = false :=
  ((c9_buy_retry_policy "a" 1 true 5 5
      [ApiResult.failure ⟨false, some 500, none, none⟩]).2.2.2.2.1
    ⟨false, some 500, none, none⟩ [] rfl (by decide)).1

/-- Claim C10: a falsy (zero) take-profit or stop-loss disables
auto-sell on every issued request even when the sell flag is set, and an
empty or whitespace-only token address or a non-positive spend amount
returns false with no API request issued. -/
theorem c10_buy_input_validation (addr : String) (amt : ℚ) (sell : Bool) (tp sl : ℚ)
    (responses : List ApiResult) :
    ((tp = 0 ∨ sl = 0) → ∀ req ∈ (buyToken addr amt sell tp sl responses).requests,
      req.autoSellEnabled = false) ∧
    (strTrim addr = "" → buyToken addr amt sell tp sl responses = ⟨false, [], 0⟩) ∧
    (amt ≤ 0 → buyToken addr amt sell tp sl responses = ⟨false, [], 0⟩) := by
  refine ⟨fun h => attemptBuyToken_autosell_false addr amt tp sl h responses sell 0,
    ?_, ?_⟩
  · intro htrim
    cases responses with
    | nil => rfl
    | cons r rest =>
        simp only [buyToken, attemptBuyToken]
        rw [if_pos htrim]
  · intro hamt
    cases responses with
    | nil => rfl
    | cons r rest =>
        simp only [buyToken, attemptBuyToken]
        by_cases htrim : strTrim addr = ""
        · rw [if_pos htrim]
        · rw [if_neg htrim, if_pos hamt]

/-- Witness for C10: a whitespace-only address yields false with no
request. -/
theorem c10_witness :
    buyToken " " (1 : ℚ) true 1 1 [ApiResult.success] = ⟨false, [], 0⟩ :=
  (c10_buy_input_validation " " 1 true 1 1 [ApiResult.success]).2.1 (by decide)

end VIP
